import Mathlib

/-
Verification of the report-generation pipeline in report_generator.py.

The embedding below mirrors the source file:
  * Record           — one converted CSV row (read_and_analyze_data, lines 76-84);
    `profit` is set at load time to `sales - expenses`.
  * GroupAggregate   — one entry of the `products` / `regions` / `months`
    dictionaries of perform_analysis.  The `avg_sales` / `avg_profit` keys are
    added by a later pass only for products and regions, so they are modelled
    as `Option ℚ`, `none` while absent.
  * perform_analysis — the aggregation (lines 88-153); Python dicts preserve
    insertion order, so the dictionaries are association lists with the upsert
    appending unseen keys at the end.
  * Arithmetic is read as exact rational arithmetic (ℚ).
-/

set_option autoImplicit false
set_option maxRecDepth 8000

namespace ReportGen

/-- A calendar date, the result of `datetime.strptime(row['Date'], '%Y-%m-%d')`. -/
structure Date where
  year : Nat
  month : Nat
  day : Nat
deriving DecidableEq

/-- One converted data row: `row['Sales']`, `row['Expenses']` parsed as numbers,
`row['Profit'] = row['Sales'] - row['Expenses']` computed at load time,
`row['Date']` parsed as a date (report_generator.py lines 76-84). -/
structure Record where
  date : Date
  product : String
  region : String
  sales : ℚ
  expenses : ℚ
  profit : ℚ
deriving DecidableEq

/-- One value of the `products` / `regions` / `months` dictionaries in
perform_analysis.  `avg_sales` / `avg_profit` are `none` until the averages
pass adds them (that pass runs only for products and regions, lines 133-139). -/
structure GroupAggregate where
  sales : ℚ
  expenses : ℚ
  profit : ℚ
  count : Nat
  avg_sales : Option ℚ
  avg_profit : Option ℚ
deriving DecidableEq

/-- The freshly inserted dictionary value
`{'sales': 0, 'expenses': 0, 'profit': 0, 'count': 0}`. -/
def GroupAggregate.empty : GroupAggregate :=
  ⟨0, 0, 0, 0, none, none⟩

/-- One accumulation step of the group-by loops (lines 105-108 etc.):
add the row's sales, expenses and profit and bump the count. -/
def GroupAggregate.add (g : GroupAggregate) (r : Record) : GroupAggregate :=
  { g with
    sales := g.sales + r.sales
    expenses := g.expenses + r.expenses
    profit := g.profit + r.profit
    count := g.count + 1 }

/-- One iteration of a group-by loop on dictionary `gs`: if the key is present
its aggregate is updated in place, otherwise a fresh aggregate is appended at
the end (Python dicts preserve insertion order). -/
def upsert (k : String) (r : Record) : List (String × GroupAggregate) → List (String × GroupAggregate)
  | [] => [(k, GroupAggregate.empty.add r)]
  | (k₀, g) :: t => if k₀ = k then (k₀, g.add r) :: t else (k₀, g) :: upsert k r t

/-- A whole group-by loop: left fold of `upsert` over the data, starting from
the empty dictionary. -/
def groupBy (key : Record → String) (data : List Record) : List (String × GroupAggregate) :=
  data.foldl (fun gs r => upsert (key r) r gs) []

/-- Dictionary lookup on the association lists standing for Python dicts. -/
def findVal (k : String) : List (String × GroupAggregate) → Option GroupAggregate
  | [] => none
  | (k₀, g) :: t => if k₀ = k then some g else findVal k t

/-- Zero-pad a number to two digits, as `%m` does. -/
def pad2 (n : Nat) : String :=
  if n < 10 then "0" ++ toString n else toString n

/-- Zero-pad a number to four digits, as `%Y` does. -/
def pad4 (n : Nat) : String :=
  if n < 10 then "000" ++ toString n
  else if n < 100 then "00" ++ toString n
  else if n < 1000 then "0" ++ toString n
  else toString n

/-- The month grouping key `row['Date'].strftime('%Y-%m')` (line 124). -/
def monthKey (d : Date) : String :=
  pad4 d.year ++ "-" ++ pad2 d.month

/-- The averages pass (lines 133-139): for every group set
`avg_sales = sales / count` and `avg_profit = profit / count`.
It is applied to products and regions only, never to months. -/
def withAverages (gs : List (String × GroupAggregate)) : List (String × GroupAggregate) :=
  gs.map fun p =>
    (p.1, { p.2 with
            avg_sales := some (p.2.sales / (p.2.count : ℚ))
            avg_profit := some (p.2.profit / (p.2.count : ℚ)) })

/-- The `overall` entry of the analysis results (lines 142-147). -/
structure Overall where
  total_sales : ℚ
  total_expenses : ℚ
  total_profit : ℚ
  profit_margin : ℚ
deriving DecidableEq

/-- The whole `analysis_results` dictionary (lines 141-151). -/
structure AnalysisResult where
  overall : Overall
  products : List (String × GroupAggregate)
  regions : List (String × GroupAggregate)
  months : List (String × GroupAggregate)
deriving DecidableEq

/-- perform_analysis (lines 88-153).  Returns `none` on an empty dataset
(`if not data: return None`); otherwise overall totals, the three group-by
dictionaries (averages added for products and regions only) and the profit
margin, which is `(total_profit / total_sales) * 100` when `total_sales > 0`
and `0` otherwise. -/
def perform_analysis (data : List Record) : Option AnalysisResult :=
  if data = [] then none
  else
    let total_sales := (data.map Record.sales).sum
    let total_expenses := (data.map Record.expenses).sum
    let total_profit := total_sales - total_expenses
    let profit_margin := if total_sales > 0 then (total_profit / total_sales) * 100 else 0
    some
      { overall :=
          { total_sales := total_sales
            total_expenses := total_expenses
            total_profit := total_profit
            profit_margin := profit_margin }
        products := withAverages (groupBy Record.product data)
        regions := withAverages (groupBy Record.region data)
        months := groupBy (fun r => monthKey r.date) data }

/-! ## Record loader (read_and_analyze_data, lines 60-86) -/

/-- A delimited text file after csv splitting: the header row and the data
rows, each a list of cell strings. -/
structure CSVFile where
  header : List String
  rows : List (List String)
deriving DecidableEq

/-- Digits to a number, most significant first. -/
def digitsToNat (cs : List Char) : Nat :=
  cs.foldl (fun acc c => acc * 10 + (c.toNat - 48)) 0

/-- Split a character list on a separator character; always returns at least
one (possibly empty) chunk, like Python `str.split(sep)`. -/
def splitOnChar (c : Char) : List Char → List (List Char)
  | [] => [[]]
  | x :: t =>
      match splitOnChar c t with
      | [] => if x = c then [[], []] else [[x]]
      | h :: r => if x = c then [] :: h :: r else (x :: h) :: r

/-- Model of Python `float(s)` on the decimal forms the loader can meet:
optional sign, digits, optional fractional part.  Returns `none` exactly when
`float` raises `ValueError` on such strings. -/
def parseFloat (s : String) : Option ℚ :=
  let signed : ℚ × List Char :=
    match s.toList with
    | '-' :: t => (-1, t)
    | '+' :: t => (1, t)
    | cs => (1, cs)
  match splitOnChar '.' signed.2 with
  | [intPart] =>
      if intPart.length > 0 && (intPart.all Char.isDigit) then
        some (signed.1 * (digitsToNat intPart : ℚ))
      else none
  | [intPart, fracPart] =>
      if (intPart.length > 0 || fracPart.length > 0)
          && (intPart.all Char.isDigit) && (fracPart.all Char.isDigit) then
        some (signed.1 * ((digitsToNat intPart : ℚ)
          + (digitsToNat fracPart : ℚ) / ((10 : ℚ) ^ fracPart.length)))
      else none
  | _ => none

/-- Model of `datetime.strptime(s, '%Y-%m-%d')`: three dash-separated numeric
fields with a plausible month and day.  Returns `none` exactly when `strptime`
raises `ValueError`. -/
def parseDate (s : String) : Option Date :=
  match splitOnChar '-' s.toList with
  | [y, m, d] =>
      if y.length > 0 && (y.all Char.isDigit)
          && m.length > 0 && (m.all Char.isDigit)
          && d.length > 0 && (d.all Char.isDigit) then
        let mn := digitsToNat m
        let dn := digitsToNat d
        if 1 ≤ mn && mn ≤ 12 && 1 ≤ dn && dn ≤ 31 then
          some ⟨digitsToNat y, mn, dn⟩
        else none
      else none
  | _ => none

/-- Lookup in the dictionary csv.DictReader builds for one row. -/
def assocLookup (k : String) : List (String × String) → Option String
  | [] => none
  | (k₀, v) :: t => if k₀ = k then some v else assocLookup k t

/-- `row[name]` on a csv.DictReader row: header names zipped with the row
cells; `none` is the `KeyError` case. -/
def fieldOf (header row : List String) (name : String) : Option String :=
  assocLookup name (header.zip row)

/-- The conversion of one row (lines 76-84): parse `Sales` and `Expenses` as
numbers, set `Profit = Sales - Expenses`, parse `Date`.  Any missing column or
parse failure is the caught `(ValueError, KeyError)` case, `none`.  The source
touches `Product` / `Region` only later, in perform_analysis, where a missing
column would raise an uncaught KeyError; the typed record therefore requires
them here, which on every input of the claims is the same behaviour. -/
def parseRow (header row : List String) : Option Record := do
  let salesStr ← fieldOf header row "Sales"
  let sales ← parseFloat salesStr
  let expensesStr ← fieldOf header row "Expenses"
  let expenses ← parseFloat expensesStr
  let dateStr ← fieldOf header row "Date"
  let date ← parseDate dateStr
  let product ← fieldOf header row "Product"
  let region ← fieldOf header row "Region"
  some ⟨date, product, region, sales, expenses, sales - expenses⟩

/-- Convert every row, failing as a whole on the first bad row — the source
returns `None` from inside the conversion loop, so no partial result escapes. -/
def mapRows (f : List String → Option Record) : List (List String) → Option (List Record)
  | [] => some []
  | row :: t =>
      match f row, mapRows f t with
      | some r, some rs => some (r :: rs)
      | _, _ => none

/-- read_and_analyze_data (lines 60-86).  `none` for the input stands for a
missing file (`FileNotFoundError`); otherwise all rows are converted or the
whole load fails. -/
def read_and_analyze_data (file : Option CSVFile) : Option (List Record) :=
  match file with
  | none => none
  | some f => mapRows (parseRow f.header) f.rows

/-- The load-then-analyze sequence of main (lines 383-392): an AnalysisResult
exists only when the load succeeded and the dataset is non-empty. -/
def analysisPipeline (file : Option CSVFile) : Option AnalysisResult :=
  (read_and_analyze_data file).bind perform_analysis

/-! ## Bootstrap (create_sample_data, lines 29-58) -/

/-- The literal sample CSV written by create_sample_data (lines 35-53). -/
def sample_data : String :=
  "Date,Product,Region,Sales,Expenses"
  ++ "\n2023-01-01,Product A,North,5000,3000"
  ++ "\n2023-01-01,Product B,North,4500,2800"
  ++ "\n2023-01-01,Product C,North,6000,3500"
  ++ "\n2023-01-01,Product A,South,5500,3200"
  ++ "\n2023-01-01,Product B,South,4800,2900"
  ++ "\n2023-01-01,Product C,South,6200,3800"
  ++ "\n2023-02-01,Product A,North,5200,3100"
  ++ "\n2023-02-01,Product B,North,4700,2850"
  ++ "\n2023-02-01,Product C,North,6100,3600"
  ++ "\n2023-02-01,Product A,South,5600,3300"
  ++ "\n2023-02-01,Product B,South,4900,2950"
  ++ "\n2023-02-01,Product C,South,6300,3900"
  ++ "\n2023-03-01,Product A,North,5300,3150"
  ++ "\n2023-03-01,Product B,North,4800,2900"
  ++ "\n2023-03-01,Product C,North,6200,3650"
  ++ "\n2023-03-01,Product A,South,5700,3350"
  ++ "\n2023-03-01,Product B,South,5000,3000"
  ++ "\n2023-03-01,Product C,South,6400,3950"

/-- A file system, mapping file names to contents when present. -/
def FileSys : Type := String → Option String

/-- create_sample_data (lines 29-58): when the file exists, return untouched;
otherwise write the sample data under the given name. -/
def create_sample_data (filename : String) (fs : FileSys) : FileSys :=
  match fs filename with
  | some _ => fs
  | none => fun name => if name = filename then some sample_data else fs name

/-- csv splitting of an unquoted file: lines on newlines, cells on commas;
the first line is the header. -/
def parseCSV (s : String) : CSVFile :=
  match (splitOnChar '\n' s.toList).map
      (fun line => (splitOnChar ',' line).map (fun cell => (⟨cell⟩ : String))) with
  | [] => ⟨[], []⟩
  | h :: t => ⟨h, t⟩

/-- The sample file as the loader sees it. -/
def sampleFile : CSVFile := parseCSV sample_data

/-- The fixed header of the sample data. -/
def stdHeader : List String := ["Date", "Product", "Region", "Sales", "Expenses"]

/-- The 18 records the loader produces from the sample file. -/
def sampleRecords : List Record :=
  [⟨⟨2023, 1, 1⟩, "Product A", "North", 5000, 3000, 2000⟩,
   ⟨⟨2023, 1, 1⟩, "Product B", "North", 4500, 2800, 1700⟩,
   ⟨⟨2023, 1, 1⟩, "Product C", "North", 6000, 3500, 2500⟩,
   ⟨⟨2023, 1, 1⟩, "Product A", "South", 5500, 3200, 2300⟩,
   ⟨⟨2023, 1, 1⟩, "Product B", "South", 4800, 2900, 1900⟩,
   ⟨⟨2023, 1, 1⟩, "Product C", "South", 6200, 3800, 2400⟩,
   ⟨⟨2023, 2, 1⟩, "Product A", "North", 5200, 3100, 2100⟩,
   ⟨⟨2023, 2, 1⟩, "Product B", "North", 4700, 2850, 1850⟩,
   ⟨⟨2023, 2, 1⟩, "Product C", "North", 6100, 3600, 2500⟩,
   ⟨⟨2023, 2, 1⟩, "Product A", "South", 5600, 3300, 2300⟩,
   ⟨⟨2023, 2, 1⟩, "Product B", "South", 4900, 2950, 1950⟩,
   ⟨⟨2023, 2, 1⟩, "Product C", "South", 6300, 3900, 2400⟩,
   ⟨⟨2023, 3, 1⟩, "Product A", "North", 5300, 3150, 2150⟩,
   ⟨⟨2023, 3, 1⟩, "Product B", "North", 4800, 2900, 1900⟩,
   ⟨⟨2023, 3, 1⟩, "Product C", "North", 6200, 3650, 2550⟩,
   ⟨⟨2023, 3, 1⟩, "Product A", "South", 5700, 3350, 2350⟩,
   ⟨⟨2023, 3, 1⟩, "Product B", "South", 5000, 3000, 2000⟩,
   ⟨⟨2023, 3, 1⟩, "Product C", "South", 6400, 3950, 2450⟩]

/-! ## Chart renderer (create_charts, lines 155-197) -/

/-- The series create_charts hands to the plotting backend: product names with
their sales and profits for the bar chart, month names with their sales and
profits for the line chart, both in dictionary (insertion) order. -/
structure ChartData where
  product_names : List String
  product_sales : List ℚ
  product_profits : List ℚ
  month_names : List String
  monthly_sales : List ℚ
  monthly_profits : List ℚ
deriving DecidableEq

/-- create_charts (lines 155-197).  A total function: the source has no
emptiness check and raises no error of its own — on empty mappings it hands
empty series to the backend, which still writes (empty) chart images. -/
def create_charts (a : AnalysisResult) : ChartData :=
  { product_names := a.products.map Prod.fst
    product_sales := a.products.map fun p => p.2.sales
    product_profits := a.products.map fun p => p.2.profit
    month_names := a.months.map Prod.fst
    monthly_sales := a.months.map fun p => p.2.sales
    monthly_profits := a.months.map fun p => p.2.profit }

/-! ## Document composer (generate_report, lines 240-371) -/

/-- One data row of a report table: label, sales, expenses, profit and the
per-group margin `(profit / sales) * 100 if sales > 0 else 0`. -/
structure TableRow where
  label : String
  sales : ℚ
  expenses : ℚ
  profit : ℚ
  margin : ℚ
deriving DecidableEq

/-- The table built from one group-by dictionary (lines 280-289 etc.), one row
per key in dictionary order. -/
def tableOf (gs : List (String × GroupAggregate)) : List TableRow :=
  gs.map fun p =>
    ⟨p.1, p.2.sales, p.2.expenses, p.2.profit,
      if p.2.sales > 0 then (p.2.profit / p.2.sales) * 100 else 0⟩

/-- Python `max(items, key=f)`: first element of maximal key, `ValueError`
(here `none`) on an empty sequence. -/
def maxBy {α : Type} (f : α → ℚ) : List α → Option α
  | [] => none
  | x :: t => some (t.foldl (fun b y => if f y > f b then y else b) x)

/-- Python `min(items, key=f)`: first element of minimal key, `ValueError`
(here `none`) on an empty sequence. -/
def minBy {α : Type} (f : α → ℚ) : List α → Option α
  | [] => none
  | x :: t => some (t.foldl (fun b y => if f y < f b then y else b) x)

/-- The qualitative judgment of the overall margin (line 358):
`'good' if profit_margin > 20 else 'satisfactory' if profit_margin > 10 else
'needs improvement'`. -/
def margin_judgment (m : ℚ) : String :=
  if m > 20 then "good"
  else if m > 10 then "satisfactory"
  else "needs improvement"

/-- The content of the composed document that the claims are about: the three
tables and the conclusion ingredients. -/
structure Report where
  product_table : List TableRow
  region_table : List TableRow
  month_table : List TableRow
  best_product : String × GroupAggregate
  worst_product : String × GroupAggregate
  best_region : String × GroupAggregate
  margin_text : String
deriving DecidableEq

/-- generate_report (lines 240-371).  The only failure point of the source is
the conclusion: `max(...)` / `min(...)` over the products and regions
dictionaries raises `ValueError` when they are empty, so the composition fails
and no document is written.  Tables themselves are built silently, empty or
not. -/
def generate_report (a : AnalysisResult) : Option Report := do
  let bp ← maxBy (fun p => p.2.profit) a.products
  let wp ← minBy (fun p => p.2.profit) a.products
  let br ← maxBy (fun p => p.2.profit) a.regions
  some
    { product_table := tableOf a.products
      region_table := tableOf a.regions
      month_table := tableOf a.months
      best_product := bp
      worst_product := wp
      best_region := br
      margin_text := margin_judgment a.overall.profit_margin }

/-! ## Helper notions used by the theorems -/

/-- Sum of one numeric field over all groups of a dictionary. -/
def sumField (f : GroupAggregate → ℚ) (gs : List (String × GroupAggregate)) : ℚ :=
  (gs.map fun p => f p.2).sum

/-- The calendar position a "YYYY-MM" key denotes: its (year, month) pair.
Chronological key order means increasing (year, month) lexicographically. -/
def monthOrd (s : String) : Nat × Nat :=
  match splitOnChar '-' s.toList with
  | [y, m] => (digitsToNat y, digitsToNat m)
  | _ => (0, 0)

/-- Chronological precedence of two "YYYY-MM" keys. -/
def monthBefore (a b : String) : Prop :=
  (monthOrd a).1 < (monthOrd b).1
    ∨ ((monthOrd a).1 = (monthOrd b).1 ∧ (monthOrd a).2 < (monthOrd b).2)

instance (a b : String) : Decidable (monthBefore a b) := by
  unfold monthBefore
  infer_instance

/-- First-seen order: the distinct elements of a list in order of first
occurrence, given the keys already seen. -/
def newKeys (seen : List String) : List String → List String
  | [] => []
  | k :: t => if k ∈ seen then newKeys seen t else k :: newKeys (k :: seen) t

/-- The aggregate of a run of records on top of an optional existing group:
`none` exactly when there is no group and no record. -/
def aggOpt (rs : List Record) (o : Option GroupAggregate) : Option GroupAggregate :=
  match o, rs with
  | some g, _ => some (rs.foldl GroupAggregate.add g)
  | none, [] => none
  | none, _ => some (rs.foldl GroupAggregate.add GroupAggregate.empty)

/-! ## Concrete data used by witnesses and counterexamples -/

/-- A loaded record: January sales 5, expenses 3, profit 2. -/
def wRec1 : Record := ⟨⟨2023, 1, 1⟩, "A", "N", 5, 3, 2⟩

/-- A loaded record: February sales 7, expenses 4, profit 3. -/
def wRec2 : Record := ⟨⟨2023, 2, 1⟩, "B", "S", 7, 4, 3⟩

/-- A two-record loaded dataset. -/
def wData : List Record := [wRec1, wRec2]

/-- The analysis of `wData`, written out. -/
def wRes : AnalysisResult :=
  { overall := { total_sales := 12, total_expenses := 7, total_profit := 5, profit_margin := 125 / 3 }
    products := [("A", ⟨5, 3, 2, 1, some 5, some 2⟩), ("B", ⟨7, 4, 3, 1, some 7, some 3⟩)]
    regions := [("N", ⟨5, 3, 2, 1, some 5, some 2⟩), ("S", ⟨7, 4, 3, 1, some 7, some 3⟩)]
    months := [("2023-01", ⟨5, 3, 2, 1, none, none⟩), ("2023-02", ⟨7, 4, 3, 1, none, none⟩)] }

/-- The analysis of `wData.reverse`: same numbers, reversed insertion order. -/
def wResRev : AnalysisResult :=
  { overall := { total_sales := 12, total_expenses := 7, total_profit := 5, profit_margin := 125 / 3 }
    products := [("B", ⟨7, 4, 3, 1, some 7, some 3⟩), ("A", ⟨5, 3, 2, 1, some 5, some 2⟩)]
    regions := [("S", ⟨7, 4, 3, 1, some 7, some 3⟩), ("N", ⟨5, 3, 2, 1, some 5, some 2⟩)]
    months := [("2023-02", ⟨7, 4, 3, 1, none, none⟩), ("2023-01", ⟨5, 3, 2, 1, none, none⟩)] }

/-- The dataset `wData` with its two rows swapped. -/
def wDataRev : List Record := [wRec2, wRec1]

/-- A record with negative sales (non-negative inputs are not enforced). -/
def negRec : Record := ⟨⟨2023, 1, 1⟩, "A", "N", -100, 0, -100⟩

/-- A dataset whose total sales is negative. -/
def negData : List Record := [negRec]

/-- A dataset whose rows are not date-sorted: March before January. -/
def unsortedData : List Record :=
  [⟨⟨2023, 3, 1⟩, "A", "N", 5, 3, 2⟩, ⟨⟨2023, 1, 1⟩, "A", "N", 7, 4, 3⟩]

/-- An analysis whose group-by mappings are all empty. -/
def emptyAnalysis : AnalysisResult :=
  { overall := { total_sales := 0, total_expenses := 0, total_profit := 0, profit_margin := 0 }
    products := []
    regions := []
    months := [] }

/-- A file whose header lacks the `Sales` column. -/
def noSalesFile : CSVFile :=
  ⟨["Date", "Product", "Region", "Expenses"], [["2023-01-01", "A", "N", "3"]]⟩

/-- A file with the full header but a row whose sales cell is not numeric. -/
def badRowFile : CSVFile :=
  ⟨["Date", "Product", "Region", "Sales", "Expenses"],
    [["2023-01-01", "A", "N", "abc", "3000"]]⟩

/-- A file system on which the input file already exists. -/
def wFS : FileSys :=
  fun name => if name = "sales_data.csv" then some "Date,Product,Region,Sales,Expenses" else none

/-- The document generate_report composes from `wRes`, written out. -/
def wReport : Report :=
  { product_table := [⟨"A", 5, 3, 2, 40⟩, ⟨"B", 7, 4, 3, 300 / 7⟩]
    region_table := [⟨"N", 5, 3, 2, 40⟩, ⟨"S", 7, 4, 3, 300 / 7⟩]
    month_table := [⟨"2023-01", 5, 3, 2, 40⟩, ⟨"2023-02", 7, 4, 3, 300 / 7⟩]
    best_product := ("B", ⟨7, 4, 3, 1, some 7, some 3⟩)
    worst_product := ("A", ⟨5, 3, 2, 1, some 5, some 2⟩)
    best_region := ("S", ⟨7, 4, 3, 1, some 7, some 3⟩)
    margin_text := "good" }

/-! ## General lemmas about the aggregation -/

theorem foldl_add_eq (l : List Record) (g : GroupAggregate) :
    l.foldl GroupAggregate.add g =
      { sales := g.sales + (l.map Record.sales).sum
        expenses := g.expenses + (l.map Record.expenses).sum
        profit := g.profit + (l.map Record.profit).sum
        count := g.count + l.length
        avg_sales := g.avg_sales
        avg_profit := g.avg_profit } := by
  induction l generalizing g with
  | nil => simp
  | cons r t ih =>
      simp only [List.foldl_cons, ih, GroupAggregate.add, List.map_cons, List.sum_cons,
        List.length_cons, GroupAggregate.mk.injEq]
      exact ⟨by ring, by ring, by ring, by omega, trivial, trivial⟩

theorem sumField_upsert (f : GroupAggregate → ℚ) (df : Record → ℚ)
    (hadd : ∀ g r, f (GroupAggregate.add g r) = f g + df r)
    (hz : f GroupAggregate.empty = 0)
    (gs : List (String × GroupAggregate)) (k : String) (r : Record) :
    sumField f (upsert k r gs) = sumField f gs + df r := by
  induction gs with
  | nil => simp [upsert, sumField, hadd, hz]
  | cons p t ih =>
      obtain ⟨k₀, g⟩ := p
      by_cases hk : k₀ = k
      · simp [upsert, hk, sumField, hadd]
        ring
      · simp only [upsert, if_neg hk, sumField, List.map_cons, List.sum_cons]
        have := ih
        simp only [sumField] at this
        rw [this]
        ring

theorem sumField_foldl (f : GroupAggregate → ℚ) (df : Record → ℚ)
    (hadd : ∀ g r, f (GroupAggregate.add g r) = f g + df r)
    (hz : f GroupAggregate.empty = 0)
    (key : Record → String) (l : List Record) :
    ∀ gs : List (String × GroupAggregate),
      sumField f (l.foldl (fun gs r => upsert (key r) r gs) gs)
        = sumField f gs + (l.map df).sum := by
  induction l with
  | nil => intro gs; simp
  | cons r t ih =>
      intro gs
      simp only [List.foldl_cons, List.map_cons, List.sum_cons]
      rw [ih, sumField_upsert f df hadd hz]
      ring

theorem sumField_groupBy (f : GroupAggregate → ℚ) (df : Record → ℚ)
    (hadd : ∀ g r, f (GroupAggregate.add g r) = f g + df r)
    (hz : f GroupAggregate.empty = 0)
    (key : Record → String) (l : List Record) :
    sumField f (groupBy key l) = (l.map df).sum := by
  have := sumField_foldl f df hadd hz key l []
  simpa [groupBy, sumField] using this

theorem sumField_withAverages (f : GroupAggregate → ℚ)
    (hf : ∀ g a b, f { g with avg_sales := a, avg_profit := b } = f g)
    (gs : List (String × GroupAggregate)) :
    sumField f (withAverages gs) = sumField f gs := by
  induction gs with
  | nil => simp [withAverages, sumField]
  | cons p t ih =>
      simp only [withAverages, sumField, List.map_cons, List.sum_cons] at *
      rw [hf]
      rw [ih]

theorem sum_profit_of_rows (data : List Record)
    (h : ∀ r ∈ data, r.profit = r.sales - r.expenses) :
    (data.map Record.profit).sum
      = (data.map Record.sales).sum - (data.map Record.expenses).sum := by
  induction data with
  | nil => simp
  | cons r t ih =>
      simp only [List.map_cons, List.sum_cons]
      rw [h r (List.mem_cons_self r t), ih fun x hx => h x (List.mem_cons_of_mem r hx)]
      ring

/-! ## Claim C1 -/

/-- Claim C1: for every loaded dataset (each record's profit was set to
sales − expenses by the loader), in each of the three grouping dimensions
produced by perform_analysis the sum over all groups of GroupAggregate.sales
equals overall.total_sales, and likewise the per-dimension sums of expenses
and profit equal overall.total_expenses and overall.total_profit. -/
theorem C1_group_sums_equal_totals (data : List Record) (res : AnalysisResult)
    (hrows : ∀ r ∈ data, r.profit = r.sales - r.expenses)
    (h : perform_analysis data = some res) :
    (sumField GroupAggregate.sales res.products = res.overall.total_sales
      ∧ sumField GroupAggregate.expenses res.products = res.overall.total_expenses
      ∧ sumField GroupAggregate.profit res.products = res.overall.total_profit)
    ∧ (sumField GroupAggregate.sales res.regions = res.overall.total_sales
      ∧ sumField GroupAggregate.expenses res.regions = res.overall.total_expenses
      ∧ sumField GroupAggregate.profit res.regions = res.overall.total_profit)
    ∧ (sumField GroupAggregate.sales res.months = res.overall.total_sales
      ∧ sumField GroupAggregate.expenses res.months = res.overall.total_expenses
      ∧ sumField GroupAggregate.profit res.months = res.overall.total_profit) := by
  have hsal : ∀ key, sumField GroupAggregate.sales (groupBy key data)
      = (data.map Record.sales).sum :=
    fun key => sumField_groupBy _ Record.sales (fun g r => rfl) rfl key data
  have hexp : ∀ key, sumField GroupAggregate.expenses (groupBy key data)
      = (data.map Record.expenses).sum :=
    fun key => sumField_groupBy _ Record.expenses (fun g r => rfl) rfl key data
  have hpro : ∀ key, sumField GroupAggregate.profit (groupBy key data)
      = (data.map Record.profit).sum :=
    fun key => sumField_groupBy _ Record.profit (fun g r => rfl) rfl key data
  have hps : (data.map Record.profit).sum
      = (data.map Record.sales).sum - (data.map Record.expenses).sum :=
    sum_profit_of_rows data hrows
  simp only [perform_analysis] at h
  split at h
  · exact absurd h (by simp)
  · rw [Option.some.injEq] at h
    subst h
    refine ⟨⟨?_, ?_, ?_⟩, ⟨?_, ?_, ?_⟩, ?_, ?_, ?_⟩ <;>
      simp only [sumField_withAverages GroupAggregate.sales (fun g a b => rfl),
        sumField_withAverages GroupAggregate.expenses (fun g a b => rfl),
        sumField_withAverages GroupAggregate.profit (fun g a b => rfl),
        hsal, hexp, hpro, hps]

/-! ## Evaluation of the concrete datasets -/

theorem monthKey_jan : monthKey ⟨2023, 1, 1⟩ = "2023-01" := by decide

theorem monthKey_feb : monthKey ⟨2023, 2, 1⟩ = "2023-02" := by decide

theorem monthKey_mar : monthKey ⟨2023, 3, 1⟩ = "2023-03" := by decide

theorem eval_wData : perform_analysis wData = some wRes := by
  simp [perform_analysis, wData, wRes, wRec1, wRec2, groupBy, upsert, withAverages,
    GroupAggregate.add, GroupAggregate.empty, monthKey_jan, monthKey_feb]
  norm_num

theorem eval_wDataRev : perform_analysis wDataRev = some wResRev := by
  simp [perform_analysis, wDataRev, wResRev, wRec1, wRec2, groupBy, upsert, withAverages,
    GroupAggregate.add, GroupAggregate.empty, monthKey_jan, monthKey_feb]
  norm_num

theorem wData_profit_rows : ∀ r ∈ wData, r.profit = r.sales - r.expenses := by
  intro r hr
  simp only [wData, List.mem_cons, List.not_mem_nil, or_false] at hr
  rcases hr with h | h <;> subst h <;> norm_num [wRec1, wRec2]

/-! ## Claim C2 -/

theorem mem_upsert_prop (P : GroupAggregate → Prop)
    (hadd : ∀ g r, P g → P (GroupAggregate.add g r))
    (hnew : ∀ r, P (GroupAggregate.empty.add r)) :
    ∀ (gs : List (String × GroupAggregate)) (k : String) (r : Record),
      (∀ p ∈ gs, P p.2) → ∀ p ∈ upsert k r gs, P p.2 := by
  intro gs
  induction gs with
  | nil =>
      intro k r _ p hp
      simp only [upsert, List.mem_singleton] at hp
      subst hp
      exact hnew r
  | cons q t ih =>
      obtain ⟨k₀, g⟩ := q
      intro k r hall p hp
      simp only [upsert] at hp
      by_cases hk : k₀ = k
      · rw [if_pos hk] at hp
        rcases List.mem_cons.mp hp with h | h
        · subst h
          exact hadd g r (hall (k₀, g) (List.mem_cons_self _ _))
        · exact hall p (List.mem_cons_of_mem _ h)
      · rw [if_neg hk] at hp
        rcases List.mem_cons.mp hp with h | h
        · subst h
          exact hall (k₀, g) (List.mem_cons_self _ _)
        · exact ih k r (fun q hq => hall q (List.mem_cons_of_mem _ hq)) p h

theorem mem_foldl_prop (P : GroupAggregate → Prop)
    (hadd : ∀ g r, P g → P (GroupAggregate.add g r))
    (hnew : ∀ r, P (GroupAggregate.empty.add r))
    (key : Record → String) (l : List Record) :
    ∀ gs : List (String × GroupAggregate), (∀ p ∈ gs, P p.2) →
      ∀ p ∈ l.foldl (fun gs r => upsert (key r) r gs) gs, P p.2 := by
  induction l with
  | nil => intro gs hall p hp; exact hall p hp
  | cons r t ih =>
      intro gs hall p hp
      exact ih (upsert (key r) r gs) (mem_upsert_prop P hadd hnew gs (key r) r hall) p hp

theorem groupBy_groups_raw (key : Record → String) (l : List Record) :
    ∀ p ∈ groupBy key l,
      1 ≤ p.2.count ∧ p.2.avg_sales = none ∧ p.2.avg_profit = none := by
  intro p hp
  refine mem_foldl_prop
    (fun g => 1 ≤ g.count ∧ g.avg_sales = none ∧ g.avg_profit = none)
    ?_ ?_ key l [] (by simp) p hp
  · intro g r hg
    exact ⟨Nat.le_succ_of_le hg.1, hg.2.1, hg.2.2⟩
  · intro r
    exact ⟨Nat.le_refl 1, rfl, rfl⟩

theorem withAverages_groups (gs : List (String × GroupAggregate))
    (hcount : ∀ p ∈ gs, 1 ≤ p.2.count) :
    ∀ p ∈ withAverages gs,
      p.2.avg_sales = some (p.2.sales / (p.2.count : ℚ))
        ∧ p.2.avg_profit = some (p.2.profit / (p.2.count : ℚ))
        ∧ 1 ≤ p.2.count := by
  intro p hp
  rw [withAverages, List.mem_map] at hp
  obtain ⟨q, hq, rfl⟩ := hp
  exact ⟨rfl, rfl, hcount q hq⟩

/-- Claim C2, corrected: in the AnalysisResult returned by perform_analysis,
every products group and every regions group has `avg_sales = sales / count`
and `avg_profit = profit / count` with integer count at least 1; the months
groups also have count at least 1 but carry no `avg_sales` / `avg_profit` at
all, because the averages pass of the source runs only over products and
regions. -/
theorem C2_group_averages (data : List Record) (res : AnalysisResult)
    (h : perform_analysis data = some res) :
    (∀ p ∈ res.products,
        p.2.avg_sales = some (p.2.sales / (p.2.count : ℚ))
          ∧ p.2.avg_profit = some (p.2.profit / (p.2.count : ℚ))
          ∧ 1 ≤ p.2.count)
    ∧ (∀ p ∈ res.regions,
        p.2.avg_sales = some (p.2.sales / (p.2.count : ℚ))
          ∧ p.2.avg_profit = some (p.2.profit / (p.2.count : ℚ))
          ∧ 1 ≤ p.2.count)
    ∧ (∀ p ∈ res.months,
        p.2.avg_sales = none ∧ p.2.avg_profit = none ∧ 1 ≤ p.2.count) := by
  simp only [perform_analysis] at h
  split at h
  · exact absurd h (by simp)
  · rw [Option.some.injEq] at h
    subst h
    refine ⟨?_, ?_, ?_⟩
    · exact withAverages_groups _ fun p hp => (groupBy_groups_raw Record.product data p hp).1
    · exact withAverages_groups _ fun p hp => (groupBy_groups_raw Record.region data p hp).1
    · intro p hp
      have h₁ := groupBy_groups_raw (fun r => monthKey r.date) data p hp
      exact ⟨h₁.2.1, h₁.2.2, h₁.1⟩

/-- Claim C2 as stated is false: on the dataset `wData` the months groups of
the analysis carry no `avg_sales` at all (the source computes averages only
for products and regions), instead of `sales / count`. -/
theorem C2_counterexample :
    ¬ (∀ res, perform_analysis wData = some res →
        ∀ p ∈ res.months,
          p.2.avg_sales = some (p.2.sales / (p.2.count : ℚ))
            ∧ p.2.avg_profit = some (p.2.profit / (p.2.count : ℚ))) := by
  intro h
  have := h wRes eval_wData ("2023-01", ⟨5, 3, 2, 1, none, none⟩) (by simp [wRes])
  simp at this

/-- Witness for C2 at the concrete dataset `wData`. -/
theorem C2_witness :
    (∀ p ∈ wRes.products,
        p.2.avg_sales = some (p.2.sales / (p.2.count : ℚ))
          ∧ p.2.avg_profit = some (p.2.profit / (p.2.count : ℚ))
          ∧ 1 ≤ p.2.count)
    ∧ (∀ p ∈ wRes.regions,
        p.2.avg_sales = some (p.2.sales / (p.2.count : ℚ))
          ∧ p.2.avg_profit = some (p.2.profit / (p.2.count : ℚ))
          ∧ 1 ≤ p.2.count)
    ∧ (∀ p ∈ wRes.months,
        p.2.avg_sales = none ∧ p.2.avg_profit = none ∧ 1 ≤ p.2.count) :=
  C2_group_averages wData wRes eval_wData

/-! ## Claim C3 -/

/-- Claim C3, corrected: the overall profit margin is
`(total_profit / total_sales) * 100` when `total_sales > 0`, and `0`
otherwise — the otherwise case covers `total_sales = 0` and also negative
`total_sales`, because the source guards with `total_sales > 0`, not
`total_sales != 0`. -/
theorem C3_profit_margin (data : List Record) (res : AnalysisResult)
    (h : perform_analysis data = some res) :
    (0 < res.overall.total_sales →
        res.overall.profit_margin
          = res.overall.total_profit / res.overall.total_sales * 100)
    ∧ (res.overall.total_sales ≤ 0 → res.overall.profit_margin = 0) := by
  simp only [perform_analysis] at h
  split at h
  · exact absurd h (by simp)
  · rw [Option.some.injEq] at h
    subst h
    constructor
    · intro h0
      simp only at h0 ⊢
      rw [if_pos h0]
    · intro h0
      simp only at h0 ⊢
      rw [if_neg (not_lt.mpr h0)]

/-- Claim C3 as stated is false for negative total sales: on `negData` the
source yields profit margin 0, while the claimed formula
`(total_profit / total_sales) * 100` gives 100. -/
theorem C3_counterexample :
    (perform_analysis negData).map (fun a => a.overall.profit_margin) = some 0
    ∧ (perform_analysis negData).map
        (fun a => a.overall.total_profit / a.overall.total_sales * 100) = some 100
    ∧ (0 : ℚ) ≠ 100 := by
  refine ⟨?_, ?_, by norm_num⟩ <;>
    simp [perform_analysis, negData, negRec, groupBy, upsert, withAverages,
      GroupAggregate.add, GroupAggregate.empty]

/-- Witness for C3 at the concrete dataset `wData`. -/
theorem C3_witness :
    (0 < wRes.overall.total_sales →
        wRes.overall.profit_margin
          = wRes.overall.total_profit / wRes.overall.total_sales * 100)
    ∧ (wRes.overall.total_sales ≤ 0 → wRes.overall.profit_margin = 0) :=
  C3_profit_margin wData wRes eval_wData

/-- Witness for C1 at the concrete dataset `wData`. -/
theorem C1_witness :
    (sumField GroupAggregate.sales wRes.products = wRes.overall.total_sales
      ∧ sumField GroupAggregate.expenses wRes.products = wRes.overall.total_expenses
      ∧ sumField GroupAggregate.profit wRes.products = wRes.overall.total_profit)
    ∧ (sumField GroupAggregate.sales wRes.regions = wRes.overall.total_sales
      ∧ sumField GroupAggregate.expenses wRes.regions = wRes.overall.total_expenses
      ∧ sumField GroupAggregate.profit wRes.regions = wRes.overall.total_profit)
    ∧ (sumField GroupAggregate.sales wRes.months = wRes.overall.total_sales
      ∧ sumField GroupAggregate.expenses wRes.months = wRes.overall.total_expenses
      ∧ sumField GroupAggregate.profit wRes.months = wRes.overall.total_profit) :=
  C1_group_sums_equal_totals wData wRes wData_profit_rows eval_wData

/-! ## Claim C6 -/

/-- Claim C6: create_sample_data on an already existing input file leaves the
file system unchanged — the existing file is never overwritten, so re-running
the bootstrap is idempotent with respect to the input file. -/
theorem C6_no_overwrite (filename : String) (fs : FileSys)
    (h : (fs filename).isSome) : create_sample_data filename fs = fs := by
  cases hfs : fs filename with
  | none => rw [hfs] at h; simp at h
  | some c => simp [create_sample_data, hfs]

/-- Witness for C6 on a file system where the input file exists. -/
theorem C6_witness :
    (wFS "sales_data.csv").isSome = true
      ∧ create_sample_data "sales_data.csv" wFS = wFS :=
  ⟨by decide, C6_no_overwrite "sales_data.csv" wFS (by decide)⟩

/-! ## Claim C7 -/

/-- Claim C7, corrected: with an empty products mapping, document composition
does fail (`max` over the empty products dictionary raises, so generate_report
yields no document), but chart rendering does not fail — create_charts has no
error path and silently hands empty product series to the plotting backend. -/
theorem C7_empty_products (a : AnalysisResult) (h : a.products = []) :
    generate_report a = none
    ∧ (create_charts a).product_names = []
    ∧ (create_charts a).product_sales = []
    ∧ (create_charts a).product_profits = [] := by
  refine ⟨?_, ?_, ?_, ?_⟩ <;> simp [generate_report, create_charts, h, maxBy]

/-- Claim C7 as stated is false: on an analysis with empty products and months
the chart step succeeds, returning empty series instead of failing; only the
document composition fails. -/
theorem C7_counterexample :
    create_charts emptyAnalysis
        = { product_names := [], product_sales := [], product_profits := []
            month_names := [], monthly_sales := [], monthly_profits := [] }
      ∧ generate_report emptyAnalysis = none :=
  ⟨rfl, rfl⟩

/-- Witness for C7 at the concrete empty analysis. -/
theorem C7_witness :
    generate_report emptyAnalysis = none
    ∧ (create_charts emptyAnalysis).product_names = []
    ∧ (create_charts emptyAnalysis).product_sales = []
    ∧ (create_charts emptyAnalysis).product_profits = [] :=
  C7_empty_products emptyAnalysis rfl

/-! ## Claim C8 -/

theorem foldl_max_spec {α : Type} (f : α → ℚ) (t : List α) :
    ∀ x : α,
      (t.foldl (fun b y => if f y > f b then y else b) x) ∈ x :: t
      ∧ f x ≤ f (t.foldl (fun b y => if f y > f b then y else b) x)
      ∧ ∀ y ∈ t, f y ≤ f (t.foldl (fun b y => if f y > f b then y else b) x) := by
  induction t with
  | nil => intro x; simp
  | cons y s ih =>
      intro x
      simp only [List.foldl_cons]
      obtain ⟨hmem, hstart, hall⟩ := ih (if f y > f x then y else x)
      by_cases hy : f y > f x
      · rw [if_pos hy] at hmem hstart hall ⊢
        refine ⟨?_, le_of_lt (lt_of_lt_of_le hy hstart), ?_⟩
        · rcases List.mem_cons.mp hmem with h | h
          · rw [h]; exact List.mem_cons_of_mem _ (List.mem_cons_self _ _)
          · exact List.mem_cons_of_mem _ (List.mem_cons_of_mem _ h)
        · intro z hz
          rcases List.mem_cons.mp hz with h | h
          · rw [h]; exact hstart
          · exact hall z h
      · rw [if_neg hy] at hmem hstart hall ⊢
        refine ⟨?_, hstart, ?_⟩
        · rcases List.mem_cons.mp hmem with h | h
          · rw [h]; exact List.mem_cons_self _ _
          · exact List.mem_cons_of_mem _ (List.mem_cons_of_mem _ h)
        · intro z hz
          rcases List.mem_cons.mp hz with h | h
          · rw [h]; exact le_trans (not_lt.mp hy) hstart
          · exact hall z h

theorem foldl_min_spec {α : Type} (f : α → ℚ) (t : List α) :
    ∀ x : α,
      (t.foldl (fun b y => if f y < f b then y else b) x) ∈ x :: t
      ∧ f (t.foldl (fun b y => if f y < f b then y else b) x) ≤ f x
      ∧ ∀ y ∈ t, f (t.foldl (fun b y => if f y < f b then y else b) x) ≤ f y := by
  induction t with
  | nil => intro x; simp
  | cons y s ih =>
      intro x
      simp only [List.foldl_cons]
      obtain ⟨hmem, hstart, hall⟩ := ih (if f y < f x then y else x)
      by_cases hy : f y < f x
      · rw [if_pos hy] at hmem hstart hall ⊢
        refine ⟨?_, le_of_lt (lt_of_le_of_lt hstart hy), ?_⟩
        · rcases List.mem_cons.mp hmem with h | h
          · rw [h]; exact List.mem_cons_of_mem _ (List.mem_cons_self _ _)
          · exact List.mem_cons_of_mem _ (List.mem_cons_of_mem _ h)
        · intro z hz
          rcases List.mem_cons.mp hz with h | h
          · rw [h]; exact hstart
          · exact hall z h
      · rw [if_neg hy] at hmem hstart hall ⊢
        refine ⟨?_, hstart, ?_⟩
        · rcases List.mem_cons.mp hmem with h | h
          · rw [h]; exact List.mem_cons_self _ _
          · exact List.mem_cons_of_mem _ (List.mem_cons_of_mem _ h)
        · intro z hz
          rcases List.mem_cons.mp hz with h | h
          · rw [h]; exact le_trans hstart (not_lt.mp hy)
          · exact hall z h

theorem maxBy_spec {α : Type} (f : α → ℚ) (l : List α) (x : α)
    (h : maxBy f l = some x) : x ∈ l ∧ ∀ y ∈ l, f y ≤ f x := by
  cases l with
  | nil => simp [maxBy] at h
  | cons a t =>
      simp only [maxBy, Option.some.injEq] at h
      subst h
      obtain ⟨hmem, hstart, hall⟩ := foldl_max_spec f t a
      refine ⟨hmem, fun y hy => ?_⟩
      rcases List.mem_cons.mp hy with h | h
      · rw [h]; exact hstart
      · exact hall y h

theorem minBy_spec {α : Type} (f : α → ℚ) (l : List α) (x : α)
    (h : minBy f l = some x) : x ∈ l ∧ ∀ y ∈ l, f x ≤ f y := by
  cases l with
  | nil => simp [minBy] at h
  | cons a t =>
      simp only [minBy, Option.some.injEq] at h
      subst h
      obtain ⟨hmem, hstart, hall⟩ := foldl_min_spec f t a
      refine ⟨hmem, fun y hy => ?_⟩
      rcases List.mem_cons.mp hy with h | h
      · rw [h]; exact hstart
      · exact hall y h

theorem margin_judgment_iff (m : ℚ) :
    (margin_judgment m = "good" ↔ 20 < m)
    ∧ (margin_judgment m = "satisfactory" ↔ 10 < m ∧ m ≤ 20)
    ∧ (margin_judgment m = "needs improvement" ↔ m ≤ 10) := by
  by_cases h1 : 20 < m
  · rw [margin_judgment, if_pos h1]
    exact ⟨⟨fun _ => h1, fun _ => rfl⟩,
      ⟨fun h => absurd h (by decide), fun h => absurd h.2 (not_le.mpr h1)⟩,
      ⟨fun h => absurd h (by decide), fun h => absurd (h1.trans_le h) (by norm_num)⟩⟩
  · by_cases h2 : 10 < m
    · rw [margin_judgment, if_neg h1, if_pos h2]
      exact ⟨⟨fun h => absurd h (by decide), fun h => absurd h h1⟩,
        ⟨fun _ => ⟨h2, not_lt.mp h1⟩, fun _ => rfl⟩,
        ⟨fun h => absurd h (by decide), fun h => absurd (h2.trans_le h) (by norm_num)⟩⟩
    · rw [margin_judgment, if_neg h1, if_neg h2]
      exact ⟨⟨fun h => absurd h (by decide), fun h => absurd h h1⟩,
        ⟨fun h => absurd h (by decide), fun h => absurd h.1 h2⟩,
        ⟨fun _ => not_lt.mp h2, fun _ => rfl⟩⟩

/-- Claim C8: the conclusion identifies as best the product attaining the
maximum profit and as needing improvement the product attaining the minimum
profit over the products mapping, identifies the region with maximum profit,
and judges the overall margin good exactly when it exceeds 20, satisfactory
exactly when it is over 10 and at most 20, and needs improvement otherwise. -/
theorem C8_conclusion (a : AnalysisResult) (rep : Report)
    (h : generate_report a = some rep) :
    (rep.best_product ∈ a.products
      ∧ ∀ p ∈ a.products, p.2.profit ≤ rep.best_product.2.profit)
    ∧ (rep.worst_product ∈ a.products
      ∧ ∀ p ∈ a.products, rep.worst_product.2.profit ≤ p.2.profit)
    ∧ (rep.best_region ∈ a.regions
      ∧ ∀ p ∈ a.regions, p.2.profit ≤ rep.best_region.2.profit)
    ∧ (rep.margin_text = "good" ↔ 20 < a.overall.profit_margin)
    ∧ (rep.margin_text = "satisfactory"
        ↔ 10 < a.overall.profit_margin ∧ a.overall.profit_margin ≤ 20)
    ∧ (rep.margin_text = "needs improvement" ↔ a.overall.profit_margin ≤ 10) := by
  rw [generate_report] at h
  cases hbp : maxBy (fun p => p.2.profit) a.products with
  | none => rw [hbp] at h; simp at h
  | some bp =>
  rw [hbp] at h
  cases hwp : minBy (fun p => p.2.profit) a.products with
  | none => rw [hwp] at h; simp at h
  | some wp =>
  rw [hwp] at h
  cases hbr : maxBy (fun p => p.2.profit) a.regions with
  | none => rw [hbr] at h; simp at h
  | some br =>
  rw [hbr] at h
  have h2 := Option.some.inj h
  subst h2
  exact ⟨maxBy_spec _ _ _ hbp, minBy_spec _ _ _ hwp, maxBy_spec _ _ _ hbr,
    (margin_judgment_iff a.overall.profit_margin).1,
    (margin_judgment_iff a.overall.profit_margin).2.1,
    (margin_judgment_iff a.overall.profit_margin).2.2⟩

theorem eval_report : generate_report wRes = some wReport := by
  norm_num [generate_report, wRes, wReport, maxBy, minBy, tableOf, margin_judgment]

/-- Witness for C8 at the concrete analysis `wRes`. -/
theorem C8_witness :
    (wReport.best_product ∈ wRes.products
      ∧ ∀ p ∈ wRes.products, p.2.profit ≤ wReport.best_product.2.profit)
    ∧ (wReport.worst_product ∈ wRes.products
      ∧ ∀ p ∈ wRes.products, wReport.worst_product.2.profit ≤ p.2.profit)
    ∧ (wReport.best_region ∈ wRes.regions
      ∧ ∀ p ∈ wRes.regions, p.2.profit ≤ wReport.best_region.2.profit)
    ∧ (wReport.margin_text = "good" ↔ 20 < wRes.overall.profit_margin)
    ∧ (wReport.margin_text = "satisfactory"
        ↔ 10 < wRes.overall.profit_margin ∧ wRes.overall.profit_margin ≤ 20)
    ∧ (wReport.margin_text = "needs improvement" ↔ wRes.overall.profit_margin ≤ 10) :=
  C8_conclusion wRes wReport eval_report

/-! ## Claim C9 -/

theorem keys_upsert (k : String) (r : Record) (gs : List (String × GroupAggregate)) :
    (upsert k r gs).map Prod.fst =
      if k ∈ gs.map Prod.fst then gs.map Prod.fst else gs.map Prod.fst ++ [k] := by
  induction gs with
  | nil => simp [upsert]
  | cons q t ih =>
      obtain ⟨k₀, g⟩ := q
      by_cases hk : k₀ = k
      · subst hk
        simp [upsert]
      · simp only [upsert, if_neg hk, List.map_cons, ih]
        by_cases hmem : k ∈ t.map Prod.fst
        · simp [hmem, Ne.symm hk]
        · simp [hmem, Ne.symm hk]

theorem newKeys_congr (l : List String) :
    ∀ s₁ s₂ : List String, (∀ x, x ∈ s₁ ↔ x ∈ s₂) → newKeys s₁ l = newKeys s₂ l := by
  induction l with
  | nil => intro s₁ s₂ _; rfl
  | cons k t ih =>
      intro s₁ s₂ h
      simp only [newKeys]
      by_cases hk : k ∈ s₁
      · rw [if_pos hk, if_pos ((h k).mp hk)]
        exact ih s₁ s₂ h
      · rw [if_neg hk, if_neg (fun hx => hk ((h k).mpr hx))]
        rw [ih (k :: s₁) (k :: s₂) (fun x => by simp [h x])]

theorem keys_foldl (key : Record → String) (l : List Record) :
    ∀ gs : List (String × GroupAggregate),
      (l.foldl (fun gs r => upsert (key r) r gs) gs).map Prod.fst
        = gs.map Prod.fst ++ newKeys (gs.map Prod.fst) (l.map key) := by
  induction l with
  | nil => intro gs; simp [newKeys]
  | cons r t ih =>
      intro gs
      simp only [List.foldl_cons, List.map_cons, newKeys]
      rw [ih (upsert (key r) r gs), keys_upsert]
      by_cases hmem : key r ∈ gs.map Prod.fst
      · rw [if_pos hmem, if_pos hmem]
      · rw [if_neg hmem, if_neg hmem]
        rw [newKeys_congr _ _ (key r :: gs.map Prod.fst) (fun x => by simp [or_comm]),
          List.append_assoc]
        rfl

theorem keys_groupBy (key : Record → String) (l : List Record) :
    (groupBy key l).map Prod.fst = newKeys [] (l.map key) := by
  have := keys_foldl key l []
  simpa [groupBy] using this

theorem newKeys_mem (l : List String) :
    ∀ (seen : List String) (k : String), k ∈ newKeys seen l → k ∈ l := by
  induction l with
  | nil => intro seen k h; simp [newKeys] at h
  | cons a t ih =>
      intro seen k h
      simp only [newKeys] at h
      by_cases ha : a ∈ seen
      · rw [if_pos ha] at h
        exact List.mem_cons_of_mem _ (ih seen k h)
      · rw [if_neg ha] at h
        rcases List.mem_cons.mp h with h | h
        · rw [h]; exact List.mem_cons_self _ _
        · exact List.mem_cons_of_mem _ (ih (a :: seen) k h)

/-- Claim C9, corrected: the time grouping key of every record is its date
truncated to year-month, rendered "YYYY-MM" (monthKey), and the month series
used for the line chart and the monthly table is the months dictionary in
first-seen insertion order of those keys — chronological only when the input
rows happen to be date-sorted, not for every dataset. -/
theorem C9_month_series (data : List Record) (res : AnalysisResult)
    (h : perform_analysis data = some res) :
    res.months.map Prod.fst = newKeys [] (data.map fun r => monthKey r.date)
    ∧ (create_charts res).month_names = res.months.map Prod.fst
    ∧ ∀ k ∈ res.months.map Prod.fst, ∃ r ∈ data, k = monthKey r.date := by
  simp only [perform_analysis] at h
  split at h
  · exact absurd h (by simp)
  · rw [Option.some.injEq] at h
    subst h
    refine ⟨keys_groupBy _ _, rfl, ?_⟩
    intro k hk
    rw [keys_groupBy] at hk
    have hmem := newKeys_mem _ [] k hk
    rw [List.mem_map] at hmem
    obtain ⟨r, hr, hkey⟩ := hmem
    exact ⟨r, hr, hkey.symm⟩

/-- Claim C9 as stated is false: on the two-record dataset whose rows are not
date-sorted, the month series comes out as ["2023-03", "2023-01"], which is
not in chronological key order. -/
theorem C9_counterexample :
    (perform_analysis unsortedData).map (fun a => a.months.map Prod.fst)
        = some ["2023-03", "2023-01"]
    ∧ monthBefore "2023-01" "2023-03"
    ∧ ¬ monthBefore "2023-03" "2023-01" := by
  refine ⟨?_, by decide, by decide⟩
  simp [perform_analysis, unsortedData, groupBy, upsert, withAverages,
    GroupAggregate.add, GroupAggregate.empty, monthKey_jan, monthKey_mar]

/-- Witness for C9 at the concrete dataset `wData`. -/
theorem C9_witness :
    wRes.months.map Prod.fst = newKeys [] (wData.map fun r => monthKey r.date)
    ∧ (create_charts wRes).month_names = wRes.months.map Prod.fst
    ∧ ∀ k ∈ wRes.months.map Prod.fst, ∃ r ∈ wData, k = monthKey r.date :=
  C9_month_series wData wRes eval_wData

/-! ## Claim C10 -/

theorem findVal_upsert (k k₀ : String) (r : Record) (gs : List (String × GroupAggregate)) :
    findVal k (upsert k₀ r gs)
      = if k₀ = k then some (((findVal k gs).getD GroupAggregate.empty).add r)
        else findVal k gs := by
  induction gs with
  | nil =>
      by_cases h : k₀ = k
      · subst h; simp [upsert, findVal]
      · simp [upsert, findVal, h]
  | cons q t ih =>
      obtain ⟨k₁, g⟩ := q
      by_cases h1 : k₁ = k₀
      · subst h1
        simp only [upsert, if_pos rfl]
        by_cases h2 : k₁ = k
        · subst h2; simp [findVal]
        · simp [findVal, h2]
      · simp only [upsert, if_neg h1]
        by_cases h2 : k₁ = k
        · subst h2
          have hk : ¬ k₀ = k₁ := fun hh => h1 hh.symm
          simp [findVal, hk]
        · simp [findVal, h2, ih]

theorem findVal_foldl (key : Record → String) (l : List Record) :
    ∀ (gs : List (String × GroupAggregate)) (k : String),
      findVal k (l.foldl (fun gs r => upsert (key r) r gs) gs)
        = aggOpt (l.filter fun r => key r = k) (findVal k gs) := by
  induction l with
  | nil =>
      intro gs k
      cases h : findVal k gs <;> simp [aggOpt, h]
  | cons r t ih =>
      intro gs k
      simp only [List.foldl_cons]
      rw [ih, findVal_upsert]
      by_cases hk : key r = k
      · rw [if_pos hk, List.filter_cons_of_pos (by simp [hk])]
        cases hg : findVal k gs with
        | none => simp [aggOpt, hg]
        | some g => simp [aggOpt, hg]
      · rw [if_neg hk, List.filter_cons_of_neg (by simp [hk])]

theorem findVal_groupBy (key : Record → String) (l : List Record) (k : String) :
    findVal k (groupBy key l) = aggOpt (l.filter fun r => key r = k) none := by
  have := findVal_foldl key l [] k
  simpa [groupBy, findVal] using this

theorem findVal_withAverages (k : String) (gs : List (String × GroupAggregate)) :
    findVal k (withAverages gs)
      = (findVal k gs).map fun g =>
          { g with avg_sales := some (g.sales / (g.count : ℚ))
                   avg_profit := some (g.profit / (g.count : ℚ)) } := by
  induction gs with
  | nil => rfl
  | cons q t ih =>
      obtain ⟨k₀, g⟩ := q
      simp only [withAverages] at ih ⊢
      by_cases h : k₀ = k <;> simp [findVal, h, ih]

theorem aggOpt_perm (rs₁ rs₂ : List Record) (h : rs₁.Perm rs₂)
    (o : Option GroupAggregate) : aggOpt rs₁ o = aggOpt rs₂ o := by
  have hlen : rs₁.length = rs₂.length := h.length_eq
  have hs : (rs₁.map Record.sales).sum = (rs₂.map Record.sales).sum :=
    (h.map Record.sales).sum_eq
  have he : (rs₁.map Record.expenses).sum = (rs₂.map Record.expenses).sum :=
    (h.map Record.expenses).sum_eq
  have hp : (rs₁.map Record.profit).sum = (rs₂.map Record.profit).sum :=
    (h.map Record.profit).sum_eq
  cases o with
  | some g =>
      simp only [aggOpt, foldl_add_eq, hs, he, hp, hlen]
  | none =>
      cases h1 : rs₁ with
      | nil =>
          have h2 : rs₂ = [] := by
            rw [h1] at h
            exact h.symm.eq_nil
          rw [h2]
      | cons a t =>
          have h2 : rs₂ ≠ [] := by
            intro hh
            rw [hh] at h
            rw [h.eq_nil] at h1
            exact List.noConfusion h1
          obtain ⟨b, t₂, rfl⟩ : ∃ b t₂, rs₂ = b :: t₂ := by
            cases rs₂ with
            | nil => exact absurd rfl h2
            | cons b t₂ => exact ⟨b, t₂, rfl⟩
          rw [h1] at hs he hp hlen
          simp only [aggOpt, foldl_add_eq, hs, he, hp, hlen]

/-- Claim C10: perform_analysis is permutation invariant up to mapping
insertion order — for record sequences that are permutations of each other it
yields the same overall totals and profit margin, and for every key the same
aggregate (sums, count, averages) in each grouping dimension. -/
theorem C10_permutation_invariant (data₁ data₂ : List Record)
    (hperm : data₁.Perm data₂) (res₁ res₂ : AnalysisResult)
    (h₁ : perform_analysis data₁ = some res₁)
    (h₂ : perform_analysis data₂ = some res₂) :
    res₁.overall = res₂.overall
    ∧ (∀ k, findVal k res₁.products = findVal k res₂.products)
    ∧ (∀ k, findVal k res₁.regions = findVal k res₂.regions)
    ∧ (∀ k, findVal k res₁.months = findVal k res₂.months) := by
  have hs : (data₁.map Record.sales).sum = (data₂.map Record.sales).sum :=
    (hperm.map Record.sales).sum_eq
  have he : (data₁.map Record.expenses).sum = (data₂.map Record.expenses).sum :=
    (hperm.map Record.expenses).sum_eq
  simp only [perform_analysis] at h₁ h₂
  split at h₁
  · exact absurd h₁ (by simp)
  · rw [Option.some.injEq] at h₁
    split at h₂
    · exact absurd h₂ (by simp)
    · rw [Option.some.injEq] at h₂
      subst h₁
      subst h₂
      refine ⟨?_, ?_, ?_, ?_⟩
      · simp only [Overall.mk.injEq]
        exact ⟨hs, he, by rw [hs, he], by rw [hs, he]⟩
      · intro k
        simp only [findVal_withAverages, findVal_groupBy]
        rw [aggOpt_perm _ _ (hperm.filter _)]
      · intro k
        simp only [findVal_withAverages, findVal_groupBy]
        rw [aggOpt_perm _ _ (hperm.filter _)]
      · intro k
        simp only [findVal_groupBy]
        rw [aggOpt_perm _ _ (hperm.filter _)]

/-- Witness for C10 on the concrete permuted datasets `wData` and
`wDataRev`. -/
theorem C10_witness :
    wRes.overall = wResRev.overall
    ∧ (∀ k, findVal k wRes.products = findVal k wResRev.products)
    ∧ (∀ k, findVal k wRes.regions = findVal k wResRev.regions)
    ∧ (∀ k, findVal k wRes.months = findVal k wResRev.months) :=
  C10_permutation_invariant wData wDataRev (List.Perm.swap wRec2 wRec1 [])
    wRes wResRev eval_wData eval_wDataRev

/-! ## Claim C5 -/

theorem fieldOf_not_mem (header : List String) (name : String) (h : name ∉ header) :
    ∀ row : List String, fieldOf header row name = none := by
  induction header with
  | nil => intro row; rfl
  | cons a t ih =>
      intro row
      cases row with
      | nil => rfl
      | cons b rt =>
          have ha : ¬ a = name := fun hh => h (hh ▸ List.mem_cons_self a t)
          simp only [fieldOf, List.zip_cons_cons, assocLookup, if_neg ha]
          exact ih (fun hx => h (List.mem_cons_of_mem a hx)) rt

theorem parseRow_no_sales (header row : List String) (h : "Sales" ∉ header) :
    parseRow header row = none := by
  simp [parseRow, fieldOf_not_mem header "Sales" h row]

theorem mapRows_cons_none (f : List String → Option Record) (row : List String)
    (t : List (List String)) (h : f row = none) : mapRows f (row :: t) = none := by
  simp [mapRows, h]

theorem mapRows_bad_row (f : List String → Option Record) (rows : List (List String))
    (r : List String) (hr : r ∈ rows) (h : f r = none) : mapRows f rows = none := by
  induction rows with
  | nil => simp at hr
  | cons a t ih =>
      rcases List.mem_cons.mp hr with h1 | h1
      · subst h1
        simp [mapRows, h]
      · have ht := ih h1
        cases hfa : f a <;> simp [mapRows, hfa, ht]

/-- Claim C5: a missing file, a header lacking the Sales column (with at least
one data row), or any row whose cells fail to parse makes
read_and_analyze_data fail as a whole — no record sequence is produced, no
partial results escape, and a Sales-less file yields no AnalysisResult at all
(even with zero data rows, where the empty load is rejected by the analysis
step). -/
theorem C5_load_failures :
    read_and_analyze_data none = none
    ∧ (∀ f : CSVFile, "Sales" ∉ f.header → ∀ r t, f.rows = r :: t →
        read_and_analyze_data (some f) = none)
    ∧ (∀ (f : CSVFile) (r : List String), r ∈ f.rows → parseRow f.header r = none →
        read_and_analyze_data (some f) = none)
    ∧ (∀ f : CSVFile, "Sales" ∉ f.header → analysisPipeline (some f) = none) := by
  refine ⟨rfl, ?_, ?_, ?_⟩
  · intro f h r t hrows
    simp [read_and_analyze_data, hrows,
      mapRows_cons_none _ _ _ (parseRow_no_sales f.header r h)]
  · intro f r hr h
    simp [read_and_analyze_data, mapRows_bad_row _ _ _ hr h]
  · intro f h
    cases hrows : f.rows with
    | nil =>
        simp [analysisPipeline, read_and_analyze_data, hrows, mapRows, perform_analysis]
    | cons r t =>
        simp [analysisPipeline, read_and_analyze_data, hrows,
          mapRows_cons_none _ _ _ (parseRow_no_sales f.header r h)]

/-- Witness for C5 at concrete failing inputs: the missing file, a file whose
header lacks Sales, and a file with a non-numeric sales cell. -/
theorem C5_witness :
    read_and_analyze_data none = none
    ∧ read_and_analyze_data (some noSalesFile) = none
    ∧ analysisPipeline (some noSalesFile) = none
    ∧ read_and_analyze_data (some badRowFile) = none :=
  ⟨C5_load_failures.1,
    C5_load_failures.2.1 noSalesFile (by decide) ["2023-01-01", "A", "N", "3"] [] rfl,
    C5_load_failures.2.2.2 noSalesFile (by decide),
    C5_load_failures.2.2.1 badRowFile ["2023-01-01", "A", "N", "abc", "3000"]
      (by decide) (by decide)⟩

/-! ## Claim C4 -/

theorem sampleFile_header : sampleFile.header = stdHeader := by decide

theorem sampleFile_rows :
    sampleFile.rows = [
      ["2023-01-01", "Product A", "North", "5000", "3000"],
      ["2023-01-01", "Product B", "North", "4500", "2800"],
      ["2023-01-01", "Product C", "North", "6000", "3500"],
      ["2023-01-01", "Product A", "South", "5500", "3200"],
      ["2023-01-01", "Product B", "South", "4800", "2900"],
      ["2023-01-01", "Product C", "South", "6200", "3800"],
      ["2023-02-01", "Product A", "North", "5200", "3100"],
      ["2023-02-01", "Product B", "North", "4700", "2850"],
      ["2023-02-01", "Product C", "North", "6100", "3600"],
      ["2023-02-01", "Product A", "South", "5600", "3300"],
      ["2023-02-01", "Product B", "South", "4900", "2950"],
      ["2023-02-01", "Product C", "South", "6300", "3900"],
      ["2023-03-01", "Product A", "North", "5300", "3150"],
      ["2023-03-01", "Product B", "North", "4800", "2900"],
      ["2023-03-01", "Product C", "North", "6200", "3650"],
      ["2023-03-01", "Product A", "South", "5700", "3350"],
      ["2023-03-01", "Product B", "South", "5000", "3000"],
      ["2023-03-01", "Product C", "South", "6400", "3950"]] := by decide

theorem splitOnChar_not_mem (ch : Char) (cs : List Char) (h : ch ∉ cs) :
    splitOnChar ch cs = [cs] := by
  induction cs with
  | nil => rfl
  | cons x t ih =>
      have hx : ¬ x = ch := fun hh => h (List.mem_cons.mpr (Or.inl hh.symm))
      have ht : ch ∉ t := fun hh => h (List.mem_cons_of_mem x hh)
      simp only [splitOnChar, ih ht, if_neg hx]

theorem parseFloat_digits (s : String) (h1 : s.toList.all Char.isDigit = true)
    (h2 : s.toList ≠ []) : parseFloat s = some ((digitsToNat s.toList : ℚ)) := by
  obtain ⟨c, cs, hcs⟩ : ∃ c cs, s.toList = c :: cs := by
    cases hl : s.toList with
    | nil => exact absurd hl h2
    | cons c cs => exact ⟨c, cs, rfl⟩
  have h1c : (c :: cs).all Char.isDigit = true := by rw [← hcs]; exact h1
  have hall : ∀ x ∈ c :: cs, x.isDigit = true := fun x hx =>
    List.all_eq_true.mp h1c x hx
  have hc : c.isDigit = true := hall c (List.mem_cons_self c cs)
  have hsign : (match c :: cs with
      | '-' :: t => ((-1 : ℚ), t)
      | '+' :: t => ((1 : ℚ), t)
      | cs => ((1 : ℚ), cs)) = ((1 : ℚ), c :: cs) := by
    split
    next heq =>
      rw [show c = '-' from (List.cons.injEq _ _ _ _ ▸ heq).1] at hc
      exact absurd hc (by decide)
    next heq =>
      rw [show c = '+' from (List.cons.injEq _ _ _ _ ▸ heq).1] at hc
      exact absurd hc (by decide)
    next => rfl
  have hdot : '.' ∉ c :: cs := fun hm => absurd (hall '.' hm) (by decide)
  simp only [parseFloat, hcs, hsign, splitOnChar_not_mem '.' (c :: cs) hdot]
  simp [h1c]

theorem parseFloat_digit_value (s : String) (n : ℕ) (q : ℚ)
    (h1 : s.toList.all Char.isDigit = true) (h2 : s.toList ≠ [])
    (h3 : digitsToNat s.toList = n) (h4 : (n : ℚ) = q) :
    parseFloat s = some q := by
  rw [parseFloat_digits s h1 h2, h3, h4]

theorem parseRow_sample (d p g s e : String) (dv : Date) (sv ev : ℚ)
    (hd : parseDate d = some dv) (hs : parseFloat s = some sv)
    (he : parseFloat e = some ev) :
    parseRow stdHeader [d, p, g, s, e] = some ⟨dv, p, g, sv, ev, sv - ev⟩ := by
  simp [parseRow, stdHeader, fieldOf, assocLookup, hd, hs, he]

theorem eval_sample_load :
    read_and_analyze_data (some sampleFile) = some sampleRecords := by
  have r01 : parseRow stdHeader ["2023-01-01", "Product A", "North", "5000", "3000"]
      = some ⟨⟨2023, 1, 1⟩, "Product A", "North", 5000, 3000, 5000 - 3000⟩ :=
    parseRow_sample _ _ _ _ _ _ _ _ (by decide)
      (parseFloat_digit_value "5000" 5000 5000 (by decide) (by decide) (by decide) (by norm_num))
      (parseFloat_digit_value "3000" 3000 3000 (by decide) (by decide) (by decide) (by norm_num))
  have r02 : parseRow stdHeader ["2023-01-01", "Product B", "North", "4500", "2800"]
      = some ⟨⟨2023, 1, 1⟩, "Product B", "North", 4500, 2800, 4500 - 2800⟩ :=
    parseRow_sample _ _ _ _ _ _ _ _ (by decide)
      (parseFloat_digit_value "4500" 4500 4500 (by decide) (by decide) (by decide) (by norm_num))
      (parseFloat_digit_value "2800" 2800 2800 (by decide) (by decide) (by decide) (by norm_num))
  have r03 : parseRow stdHeader ["2023-01-01", "Product C", "North", "6000", "3500"]
      = some ⟨⟨2023, 1, 1⟩, "Product C", "North", 6000, 3500, 6000 - 3500⟩ :=
    parseRow_sample _ _ _ _ _ _ _ _ (by decide)
      (parseFloat_digit_value "6000" 6000 6000 (by decide) (by decide) (by decide) (by norm_num))
      (parseFloat_digit_value "3500" 3500 3500 (by decide) (by decide) (by decide) (by norm_num))
  have r04 : parseRow stdHeader ["2023-01-01", "Product A", "South", "5500", "3200"]
      = some ⟨⟨2023, 1, 1⟩, "Product A", "South", 5500, 3200, 5500 - 3200⟩ :=
    parseRow_sample _ _ _ _ _ _ _ _ (by decide)
      (parseFloat_digit_value "5500" 5500 5500 (by decide) (by decide) (by decide) (by norm_num))
      (parseFloat_digit_value "3200" 3200 3200 (by decide) (by decide) (by decide) (by norm_num))
  have r05 : parseRow stdHeader ["2023-01-01", "Product B", "South", "4800", "2900"]
      = some ⟨⟨2023, 1, 1⟩, "Product B", "South", 4800, 2900, 4800 - 2900⟩ :=
    parseRow_sample _ _ _ _ _ _ _ _ (by decide)
      (parseFloat_digit_value "4800" 4800 4800 (by decide) (by decide) (by decide) (by norm_num))
      (parseFloat_digit_value "2900" 2900 2900 (by decide) (by decide) (by decide) (by norm_num))
  have r06 : parseRow stdHeader ["2023-01-01", "Product C", "South", "6200", "3800"]
      = some ⟨⟨2023, 1, 1⟩, "Product C", "South", 6200, 3800, 6200 - 3800⟩ :=
    parseRow_sample _ _ _ _ _ _ _ _ (by decide)
      (parseFloat_digit_value "6200" 6200 6200 (by decide) (by decide) (by decide) (by norm_num))
      (parseFloat_digit_value "3800" 3800 3800 (by decide) (by decide) (by decide) (by norm_num))
  have r07 : parseRow stdHeader ["2023-02-01", "Product A", "North", "5200", "3100"]
      = some ⟨⟨2023, 2, 1⟩, "Product A", "North", 5200, 3100, 5200 - 3100⟩ :=
    parseRow_sample _ _ _ _ _ _ _ _ (by decide)
      (parseFloat_digit_value "5200" 5200 5200 (by decide) (by decide) (by decide) (by norm_num))
      (parseFloat_digit_value "3100" 3100 3100 (by decide) (by decide) (by decide) (by norm_num))
  have r08 : parseRow stdHeader ["2023-02-01", "Product B", "North", "4700", "2850"]
      = some ⟨⟨2023, 2, 1⟩, "Product B", "North", 4700, 2850, 4700 - 2850⟩ :=
    parseRow_sample _ _ _ _ _ _ _ _ (by decide)
      (parseFloat_digit_value "4700" 4700 4700 (by decide) (by decide) (by decide) (by norm_num))
      (parseFloat_digit_value "2850" 2850 2850 (by decide) (by decide) (by decide) (by norm_num))
  have r09 : parseRow stdHeader ["2023-02-01", "Product C", "North", "6100", "3600"]
      = some ⟨⟨2023, 2, 1⟩, "Product C", "North", 6100, 3600, 6100 - 3600⟩ :=
    parseRow_sample _ _ _ _ _ _ _ _ (by decide)
      (parseFloat_digit_value "6100" 6100 6100 (by decide) (by decide) (by decide) (by norm_num))
      (parseFloat_digit_value "3600" 3600 3600 (by decide) (by decide) (by decide) (by norm_num))
  have r10 : parseRow stdHeader ["2023-02-01", "Product A", "South", "5600", "3300"]
      = some ⟨⟨2023, 2, 1⟩, "Product A", "South", 5600, 3300, 5600 - 3300⟩ :=
    parseRow_sample _ _ _ _ _ _ _ _ (by decide)
      (parseFloat_digit_value "5600" 5600 5600 (by decide) (by decide) (by decide) (by norm_num))
      (parseFloat_digit_value "3300" 3300 3300 (by decide) (by decide) (by decide) (by norm_num))
  have r11 : parseRow stdHeader ["2023-02-01", "Product B", "South", "4900", "2950"]
      = some ⟨⟨2023, 2, 1⟩, "Product B", "South", 4900, 2950, 4900 - 2950⟩ :=
    parseRow_sample _ _ _ _ _ _ _ _ (by decide)
      (parseFloat_digit_value "4900" 4900 4900 (by decide) (by decide) (by decide) (by norm_num))
      (parseFloat_digit_value "2950" 2950 2950 (by decide) (by decide) (by decide) (by norm_num))
  have r12 : parseRow stdHeader ["2023-02-01", "Product C", "South", "6300", "3900"]
      = some ⟨⟨2023, 2, 1⟩, "Product C", "South", 6300, 3900, 6300 - 3900⟩ :=
    parseRow_sample _ _ _ _ _ _ _ _ (by decide)
      (parseFloat_digit_value "6300" 6300 6300 (by decide) (by decide) (by decide) (by norm_num))
      (parseFloat_digit_value "3900" 3900 3900 (by decide) (by decide) (by decide) (by norm_num))
  have r13 : parseRow stdHeader ["2023-03-01", "Product A", "North", "5300", "3150"]
      = some ⟨⟨2023, 3, 1⟩, "Product A", "North", 5300, 3150, 5300 - 3150⟩ :=
    parseRow_sample _ _ _ _ _ _ _ _ (by decide)
      (parseFloat_digit_value "5300" 5300 5300 (by decide) (by decide) (by decide) (by norm_num))
      (parseFloat_digit_value "3150" 3150 3150 (by decide) (by decide) (by decide) (by norm_num))
  have r14 : parseRow stdHeader ["2023-03-01", "Product B", "North", "4800", "2900"]
      = some ⟨⟨2023, 3, 1⟩, "Product B", "North", 4800, 2900, 4800 - 2900⟩ :=
    parseRow_sample _ _ _ _ _ _ _ _ (by decide)
      (parseFloat_digit_value "4800" 4800 4800 (by decide) (by decide) (by decide) (by norm_num))
      (parseFloat_digit_value "2900" 2900 2900 (by decide) (by decide) (by decide) (by norm_num))
  have r15 : parseRow stdHeader ["2023-03-01", "Product C", "North", "6200", "3650"]
      = some ⟨⟨2023, 3, 1⟩, "Product C", "North", 6200, 3650, 6200 - 3650⟩ :=
    parseRow_sample _ _ _ _ _ _ _ _ (by decide)
      (parseFloat_digit_value "6200" 6200 6200 (by decide) (by decide) (by decide) (by norm_num))
      (parseFloat_digit_value "3650" 3650 3650 (by decide) (by decide) (by decide) (by norm_num))
  have r16 : parseRow stdHeader ["2023-03-01", "Product A", "South", "5700", "3350"]
      = some ⟨⟨2023, 3, 1⟩, "Product A", "South", 5700, 3350, 5700 - 3350⟩ :=
    parseRow_sample _ _ _ _ _ _ _ _ (by decide)
      (parseFloat_digit_value "5700" 5700 5700 (by decide) (by decide) (by decide) (by norm_num))
      (parseFloat_digit_value "3350" 3350 3350 (by decide) (by decide) (by decide) (by norm_num))
  have r17 : parseRow stdHeader ["2023-03-01", "Product B", "South", "5000", "3000"]
      = some ⟨⟨2023, 3, 1⟩, "Product B", "South", 5000, 3000, 5000 - 3000⟩ :=
    parseRow_sample _ _ _ _ _ _ _ _ (by decide)
      (parseFloat_digit_value "5000" 5000 5000 (by decide) (by decide) (by decide) (by norm_num))
      (parseFloat_digit_value "3000" 3000 3000 (by decide) (by decide) (by decide) (by norm_num))
  have r18 : parseRow stdHeader ["2023-03-01", "Product C", "South", "6400", "3950"]
      = some ⟨⟨2023, 3, 1⟩, "Product C", "South", 6400, 3950, 6400 - 3950⟩ :=
    parseRow_sample _ _ _ _ _ _ _ _ (by decide)
      (parseFloat_digit_value "6400" 6400 6400 (by decide) (by decide) (by decide) (by norm_num))
      (parseFloat_digit_value "3950" 3950 3950 (by decide) (by decide) (by decide) (by norm_num))
  simp only [read_and_analyze_data, sampleFile_header, sampleFile_rows]
  simp only [mapRows, r01, r02, r03, r04, r05, r06, r07, r08, r09, r10, r11, r12,
    r13, r14, r15, r16, r17, r18]
  simp only [sampleRecords, Option.some.injEq, List.cons.injEq, Record.mk.injEq,
    and_true, true_and]
  norm_num

/-- Claim C4, corrected: the total of the 18 Sales values of the synthesized
sample dataset — and hence overall.total_sales after loading and aggregating
it — is 98,200.00, not 98,500.00; and total profit equals total sales minus
total expenses over the same rows (39,300 = 98,200 − 58,900). -/
theorem C4_sample_totals :
    read_and_analyze_data (some sampleFile) = some sampleRecords
    ∧ (analysisPipeline (some sampleFile)).map
        (fun a => (a.overall.total_sales, a.overall.total_expenses, a.overall.total_profit))
        = some ((98200 : ℚ), (58900 : ℚ), (39300 : ℚ))
    ∧ (39300 : ℚ) = 98200 - 58900 := by
  refine ⟨eval_sample_load, ?_, by norm_num⟩
  simp [analysisPipeline, eval_sample_load, perform_analysis, sampleRecords]
  norm_num

/-- Claim C4 as stated is false: the sample total is 98,200.00, not the
98,500.00 the specification asserts. -/
theorem C4_counterexample :
    (analysisPipeline (some sampleFile)).map (fun a => a.overall.total_sales)
        = some (98200 : ℚ)
    ∧ (98200 : ℚ) ≠ 98500 := by
  constructor
  · simp [analysisPipeline, eval_sample_load, perform_analysis, sampleRecords]
    norm_num
  · norm_num

end ReportGen
